import Mathlib

/-!
Verification of the motor control core (`Firmware/MotorControl/motor.cpp`).

The firmware's IEEE-754 single-precision values are embedded as rationals
(`ℚ`); a NaN-able modulation input is embedded as `Option ℚ` with `none`
playing the role of NaN.  Collaborators that live outside the translated
file (trigonometry lookup tables, `std::sqrt`, the SVM primitive, the
thermistor limiters, `wrap_pm_pi`, the bus voltage and timing constants)
are carried in an explicit environment record `Env`.  Motor state that the
code reads or writes is a record `MotorState`; every operation is a pure
function from inputs and a pre-state to a `Bool × MotorState` pair
mirroring the C++ return value and the mutations it performs.
-/

/-- Modelled from the spec: firmware float constant approximating `1/√3`
(`utils.h` is not under `src/`; its decimal literal is `0.57735026919f`). -/
def one_by_sqrt3 : ℚ := 0.57735026919

/-- Modelled from the spec: firmware float constant approximating `√3/2`
(`utils.h` is not under `src/`; its decimal literal is `0.86602540378f`). -/
def sqrt3_by_2 : ℚ := 0.86602540378

/-- Modelled from the spec: motor type enumeration values
(`motor.hpp` is not under `src/`; `MOTOR_TYPE_HIGH_CURRENT = 0`,
`MOTOR_TYPE_GIMBAL = 2`, `MOTOR_TYPE_ACIM = 3`). -/
def MOTOR_TYPE_HIGH_CURRENT : ℕ := 0

/-- Modelled from the spec: gimbal motor type enumeration value. -/
def MOTOR_TYPE_GIMBAL : ℕ := 2

/-- Modelled from the spec: AC induction motor type enumeration value. -/
def MOTOR_TYPE_ACIM : ℕ := 3

/-- Modelled from the spec: the error kinds of section 7 as a sticky
bitmask (`motor.hpp` is not under `src/`); the exact bit positions are
immaterial to the claims, only their distinctness matters. -/
def ERROR_PHASE_RESISTANCE_OUT_OF_RANGE : ℕ := 1

/-- Modelled from the spec: phase inductance out of range error bit. -/
def ERROR_PHASE_INDUCTANCE_OUT_OF_RANGE : ℕ := 2

/-- Modelled from the spec: gate driver fault error bit. -/
def ERROR_DRV_FAULT : ℕ := 4

/-- Modelled from the spec: motor thermistor over temperature error bit. -/
def ERROR_MOTOR_THERMISTOR_OVER_TEMP : ℕ := 8

/-- Modelled from the spec: FET thermistor over temperature error bit. -/
def ERROR_FET_THERMISTOR_OVER_TEMP : ℕ := 16

/-- Modelled from the spec: control deadline missed error bit. -/
def ERROR_CONTROL_DEADLINE_MISSED : ℕ := 32

/-- Modelled from the spec: current sense saturation error bit. -/
def ERROR_CURRENT_SENSE_SATURATION : ℕ := 64

/-- Modelled from the spec: current limit violation error bit. -/
def ERROR_CURRENT_LIMIT_VIOLATION : ℕ := 128

/-- Modelled from the spec: modulation magnitude error bit. -/
def ERROR_MODULATION_MAGNITUDE : ℕ := 256

/-- Modelled from the spec: modulation is NaN error bit. -/
def ERROR_MODULATION_IS_NAN : ℕ := 512

/-- Modelled from the spec: motor type not implemented error bit. -/
def ERROR_NOT_IMPLEMENTED_MOTOR_TYPE : ℕ := 1024

/-- Modelled from the spec: `Axis::ERROR_MOTOR_FAILED` bit of the axis
error bitmask (`axis.hpp` is not under `src/`). -/
def AXIS_ERROR_MOTOR_FAILED : ℕ := 4096

/-- Modelled from the spec: `Axis::ERROR_CURRENT_MEASUREMENT_TIMEOUT` bit
of the axis error bitmask (`axis.hpp` is not under `src/`). -/
def AXIS_ERROR_CURRENT_MEASUREMENT_TIMEOUT : ℕ := 8192

/-- The motor error kinds that `set_error` is invoked with anywhere in
`motor.cpp`. -/
def motorErrorBits : List ℕ :=
  [ERROR_PHASE_RESISTANCE_OUT_OF_RANGE, ERROR_PHASE_INDUCTANCE_OUT_OF_RANGE,
   ERROR_DRV_FAULT, ERROR_MOTOR_THERMISTOR_OVER_TEMP,
   ERROR_FET_THERMISTOR_OVER_TEMP, ERROR_CONTROL_DEADLINE_MISSED,
   ERROR_CURRENT_SENSE_SATURATION, ERROR_CURRENT_LIMIT_VIOLATION,
   ERROR_MODULATION_MAGNITUDE, ERROR_MODULATION_IS_NAN,
   ERROR_NOT_IMPLEMENTED_MOTOR_TYPE]

/-- The user-writable motor configuration (`Motor::Config_t`), restricted
to the fields `motor.cpp` reads or writes.  `motor_type` is kept as the
raw configuration integer so that the `default` branch of the dispatch in
`Motor::update` stays reachable. -/
structure Config where
  motor_type : ℕ
  current_lim : ℚ
  current_lim_margin : ℚ
  torque_lim : ℚ
  phase_resistance : ℚ
  phase_inductance : ℚ
  torque_constant : ℚ
  pole_pairs : ℚ
  direction : ℚ
  R_wL_FF_enable : Bool
  bEMF_FF_enable : Bool
  current_control_bandwidth : ℚ
  requested_current_range : ℚ
  calibration_current : ℚ
  resistance_calib_max_voltage : ℚ
  acim_slip_velocity : ℚ
  acim_gain_min_flux : ℚ
  acim_autoflux_enable : Bool
  acim_autoflux_min_Id : ℚ
  acim_autoflux_attack_gain : ℚ
  acim_autoflux_decay_gain : ℚ
  pre_calibrated : Bool
deriving Repr, DecidableEq

/-- The current controller state (`CurrentControl_t`). -/
structure CurrentControl where
  p_gain : ℚ
  i_gain : ℚ
  v_current_control_integral_d : ℚ
  v_current_control_integral_q : ℚ
  Ibus : ℚ
  final_v_alpha : ℚ
  final_v_beta : ℚ
  Id_setpoint : ℚ
  Iq_setpoint : ℚ
  Id_measured : ℚ
  Iq_measured : ℚ
  I_measured_report_filter_k : ℚ
  max_allowed_current : ℚ
  overcurrent_trip_level : ℚ
  acim_rotor_flux : ℚ
  async_phase_vel : ℚ
  async_phase_offset : ℚ
deriving Repr, DecidableEq

/-- The motor state that `motor.cpp` reads and mutates.  `armed` models
whether the PWM outputs are unlocked (`safety_critical_arm_motor_pwm` /
`safety_critical_disarm_motor_pwm`); `axis_error` models the parent
axis's error bitmask; `current_meas_phB` / `current_meas_phC` are the
most recent phase current measurements (`current_meas_`). -/
structure MotorState where
  config : Config
  current_control : CurrentControl
  error : ℕ
  axis_error : ℕ
  armed : Bool
  effective_current_lim_ : ℚ
  next_timings : ℕ × ℕ × ℕ
  next_timings_valid : Bool
  current_meas_phB : ℚ
  current_meas_phC : ℚ
  phase_current_rev_gain : ℚ
  shunt_conductance : ℚ
  is_calibrated : Bool
deriving Repr, DecidableEq

/-- The external collaborators of the core (section 6 of the spec):
bus voltage, control timing constants, the trig lookup tables
`our_arm_cos_f32` / `our_arm_sin_f32`, `std::sqrt`, the `SVM` primitive,
the two thermistor current limiters, `wrap_pm_pi`, and the PWM period
`TIM_1_8_PERIOD_CLOCKS`. -/
structure Env where
  vbus_voltage : ℚ
  current_meas_period : ℚ
  current_meas_hz : ℚ
  cosf : ℚ → ℚ
  sinf : ℚ → ℚ
  sqrtf : ℚ → ℚ
  svm : ℚ → ℚ → ℚ × ℚ × ℚ × Bool
  motor_therm_get_current_limit : ℚ → ℚ
  fet_therm_get_current_limit : ℚ → ℚ
  wrap_pm_pi : ℚ → ℚ
  period_clocks : ℕ

/-- The spec's contract for the SVM primitive: the success flag is true
exactly when the modulation vector lies in the linear range
`mα² + mβ² ≤ 3/4` (inscribed-circle radius `√3/2`). -/
def SVMok (svm : ℚ → ℚ → ℚ × ℚ × ℚ × Bool) : Prop :=
  ∀ a b : ℚ, ((svm a b).2.2.2 = true) ↔ a ^ 2 + b ^ 2 ≤ 3 / 4

/-- Modelled from the spec: the `SVM` primitive (`utils.cpp` is not under
`src/`).  The spec constrains SVM to succeed exactly on `mα² + mβ² ≤ 3/4`
and to return on-times in `[0,1]` on success; the concrete on-time
expressions below are one such assignment (a midpoint-injection style
profile), used for concrete evaluation. -/
def SVM_model (a b : ℚ) : ℚ × ℚ × ℚ × Bool :=
  if a ^ 2 + b ^ 2 ≤ 3 / 4 then
    (1 / 2 + a / 2, 1 / 2 - a / 4 + b / 3, 1 / 2 - a / 4 - b / 3, true)
  else
    (0, 0, 0, false)

namespace Motor

/-- `Motor::set_error` (motor.cpp lines 108-113): OR the kind into the
motor error bitmask, notify the axis with `ERROR_MOTOR_FAILED`, and
disarm the PWM (`safety_critical_disarm_motor_pwm`).  The
`update_brake_current()` call touches only low-level global state outside
this model. -/
def set_error (e : ℕ) (s : MotorState) : MotorState :=
  { s with
    error := s.error ||| e
    axis_error := s.axis_error ||| AXIS_ERROR_MOTOR_FAILED
    armed := false }

/-- `Motor::reset_current_control` (motor.cpp lines 54-59). -/
def reset_current_control (s : MotorState) : MotorState :=
  { s with
    current_control :=
      { s.current_control with
        v_current_control_integral_d := 0
        v_current_control_integral_q := 0
        acim_rotor_flux := 0
        Ibus := 0 } }

/-- `Motor::arm` (motor.cpp lines 39-52).  `wait_ok` models the result of
`axis_->wait_for_current_meas()`; `axis_->controller_.reset()` touches
only axis-side controller state outside this model.  On success the PWM
is unlocked (`safety_critical_arm_motor_pwm`). -/
def arm (wait_ok : Bool) (s : MotorState) : Bool × MotorState :=
  let s := reset_current_control s
  if wait_ok = false then
    (false, { s with axis_error := s.axis_error ||| AXIS_ERROR_CURRENT_MEASUREMENT_TIMEOUT })
  else
    (true, { s with next_timings_valid := false, armed := true })

/-- `Motor::effective_current_lim` (motor.cpp lines 133-149): minimum of
the configured limit, the hardware cap (voltage-derived for gimbal
motors, `max_allowed_current` otherwise) and the two thermistor caps;
the result is also stored in `effective_current_lim_`. -/
def effective_current_lim (env : Env) (s : MotorState) : ℚ × MotorState :=
  let current_lim := s.config.current_lim
  let current_lim :=
    if s.config.motor_type = MOTOR_TYPE_GIMBAL then
      min current_lim (49 / 50 * one_by_sqrt3 * env.vbus_voltage)
    else
      min current_lim s.current_control.max_allowed_current
  let current_lim := min current_lim (env.motor_therm_get_current_limit s.config.current_lim)
  let current_lim := min current_lim (env.fet_therm_get_current_limit s.config.current_lim)
  (current_lim, { s with effective_current_lim_ := current_lim })

/-- `(uint16_t)(t * (float)TIM_1_8_PERIOD_CLOCKS)` (motor.cpp lines
283-285): the C++ float-to-unsigned conversion truncates toward zero,
which for the nonnegative on-times produced by a successful SVM call is
the floor of the product. -/
def dutyCount (period : ℕ) (t : ℚ) : ℕ :=
  (⌊t * (period : ℚ)⌋).toNat

/-- `Motor::enqueue_modulation_timings` (motor.cpp lines 277-288).  A NaN
input is embedded as `none`; `is_nan` on either input funnels into
`set_error(ERROR_MODULATION_IS_NAN)`, an SVM failure into
`set_error(ERROR_MODULATION_MAGNITUDE)`, and otherwise the three duty
counts are written and `next_timings_valid` is set. -/
def enqueue_modulation_timings (env : Env) (mod_alpha mod_beta : Option ℚ)
    (s : MotorState) : Bool × MotorState :=
  match mod_alpha, mod_beta with
  | some a, some b =>
    let tA := (env.svm a b).1
    let tB := (env.svm a b).2.1
    let tC := (env.svm a b).2.2.1
    let success := (env.svm a b).2.2.2
    if success then
      (true,
        { s with
          next_timings :=
            (dutyCount env.period_clocks tA, dutyCount env.period_clocks tB,
             dutyCount env.period_clocks tC)
          next_timings_valid := true })
    else
      (false, set_error ERROR_MODULATION_MAGNITUDE s)
  | _, _ => (false, set_error ERROR_MODULATION_IS_NAN s)

/-- `Motor::enqueue_voltage_timings` (motor.cpp lines 290-298); the
`log_timing` call touches only the timing trace. -/
def enqueue_voltage_timings (env : Env) (v_alpha v_beta : ℚ)
    (s : MotorState) : Bool × MotorState :=
  let vfactor := 1 / (2 / 3 * env.vbus_voltage)
  enqueue_modulation_timings env (some (vfactor * v_alpha)) (some (vfactor * v_beta)) s

/-- `Motor::FOC_voltage` (motor.cpp lines 301-307). -/
def FOC_voltage (env : Env) (v_d v_q pwm_phase : ℚ) (s : MotorState) :
    Bool × MotorState :=
  let c := env.cosf pwm_phase
  let sn := env.sinf pwm_phase
  enqueue_voltage_timings env (c * v_d - sn * v_q) (c * v_q + sn * v_d) s

/-- Clarke transform α component (motor.cpp line 324). -/
def clarke_alpha (s : MotorState) : ℚ :=
  -s.current_meas_phB - s.current_meas_phC

/-- Clarke transform β component (motor.cpp line 325). -/
def clarke_beta (s : MotorState) : ℚ :=
  one_by_sqrt3 * (s.current_meas_phB - s.current_meas_phC)

/-- Park transform d component at angle `phi` (motor.cpp line 330). -/
def park_d (env : Env) (s : MotorState) (phi : ℚ) : ℚ :=
  env.cosf phi * clarke_alpha s + env.sinf phi * clarke_beta s

/-- Park transform q component at angle `phi` (motor.cpp line 331). -/
def park_q (env : Env) (s : MotorState) (phi : ℚ) : ℚ :=
  env.cosf phi * clarke_beta s - env.sinf phi * clarke_alpha s

/-- The vector-modulation saturation / anti-windup block of
`Motor::FOC_current` (motor.cpp lines 366-378), returning the possibly
rescaled modulation vector and the new integrator values.  The source
branches on `mod_scalefactor < 1.0f` with
`mod_scalefactor = 0.80f * sqrt3_by_2 / sqrt(mod_d² + mod_q²)`; since the
numerator is a positive constant and IEEE float division of a positive
number by zero yields `+∞` (for which the comparison is false), that
comparison is equivalent to `0.80 * sqrt3_by_2 < sqrt(mod_d² + mod_q²)`,
which is how the branch condition is written here. -/
def antiWindup (env : Env) (mod_d mod_q Ierr_d Ierr_q vint_d vint_q i_gain : ℚ) :
    ℚ × ℚ × ℚ × ℚ :=
  let root := env.sqrtf (mod_d ^ 2 + mod_q ^ 2)
  if 4 / 5 * sqrt3_by_2 < root then
    let mod_scalefactor := 4 / 5 * sqrt3_by_2 / root
    (mod_scalefactor * mod_d, mod_scalefactor * mod_q,
     99 / 100 * vint_d, 99 / 100 * vint_q)
  else
    (mod_d, mod_q,
     vint_d + Ierr_d * (i_gain * env.current_meas_period),
     vint_q + Ierr_q * (i_gain * env.current_meas_period))

/-- `Motor::FOC_current` (motor.cpp lines 309-425).  The oscilloscope
capture block (lines 398-421) and the task timers touch only debug state
outside this model (spec section 9 marks them out of scope). -/
def FOC_current (env : Env) (Id_des Iq_des I_phase pwm_phase phase_vel : ℚ)
    (s : MotorState) : Bool × MotorState :=
  let s := { s with current_control := { s.current_control with Iq_setpoint := Iq_des } }
  if s.current_control.overcurrent_trip_level < |s.current_meas_phB|
      ∨ s.current_control.overcurrent_trip_level < |s.current_meas_phC| then
    (false, set_error ERROR_CURRENT_SENSE_SATURATION s)
  else
    let Id := park_d env s I_phase
    let Iq := park_q env s I_phase
    let s :=
      { s with
        current_control :=
          { s.current_control with
            Iq_measured := s.current_control.Iq_measured +
              s.current_control.I_measured_report_filter_k * (Iq - s.current_control.Iq_measured)
            Id_measured := s.current_control.Id_measured +
              s.current_control.I_measured_report_filter_k * (Id - s.current_control.Id_measured) } }
    let I_trip := s.effective_current_lim_ + s.config.current_lim_margin
    if I_trip ^ 2 < Id ^ 2 + Iq ^ 2 then
      (false, set_error ERROR_CURRENT_LIMIT_VIOLATION s)
    else
      let Ierr_d := Id_des - Id
      let Ierr_q := Iq_des - Iq
      let Vd := s.current_control.v_current_control_integral_d + Ierr_d * s.current_control.p_gain
      let Vq := s.current_control.v_current_control_integral_q + Ierr_q * s.current_control.p_gain
      let Vd :=
        if s.config.R_wL_FF_enable then
          Vd - phase_vel * s.config.phase_inductance * Iq_des + s.config.phase_resistance * Id_des
        else Vd
      let Vq :=
        if s.config.R_wL_FF_enable then
          Vq + phase_vel * s.config.phase_inductance * Id_des + s.config.phase_resistance * Iq_des
        else Vq
      let Vq :=
        if s.config.bEMF_FF_enable then
          Vq + phase_vel * (2 / 3) * (s.config.torque_constant / s.config.pole_pairs)
        else Vq
      let mod_to_V := 2 / 3 * env.vbus_voltage
      let V_to_mod := 1 / mod_to_V
      let aw := antiWindup env (V_to_mod * Vd) (V_to_mod * Vq) Ierr_d Ierr_q
        s.current_control.v_current_control_integral_d
        s.current_control.v_current_control_integral_q
        s.current_control.i_gain
      let mod_d := aw.1
      let mod_q := aw.2.1
      let s :=
        { s with
          current_control :=
            { s.current_control with
              v_current_control_integral_d := aw.2.2.1
              v_current_control_integral_q := aw.2.2.2 } }
      let s :=
        { s with
          current_control := { s.current_control with Ibus := mod_d * Id + mod_q * Iq } }
      let mod_alpha := env.cosf pwm_phase * mod_d - env.sinf pwm_phase * mod_q
      let mod_beta := env.cosf pwm_phase * mod_q + env.sinf pwm_phase * mod_d
      let s :=
        { s with
          current_control :=
            { s.current_control with
              final_v_alpha := mod_to_V * mod_alpha
              final_v_beta := mod_to_V * mod_beta } }
      enqueue_modulation_timings env (some mod_alpha) (some mod_beta) s

/-- `std::clamp(v, lo, hi)`. -/
def clampQ (v lo hi : ℚ) : ℚ :=
  if v < lo then lo else if hi < v then hi else v

/-- The ACIM slip-velocity computation with its small-denominator guard
(motor.cpp lines 464-467).  In the firmware
`slip_velocity = acim_slip_velocity * (iq / acim_rotor_flux)` in IEEE
float arithmetic: when the flux is zero the quotient is `±∞` or NaN, and
the guard `is_nan(slip_velocity) || |slip_velocity| > 0.1f * hz` rejects
every such value, so that case yields zero directly here.  For a nonzero
flux the quotient of finite values is finite, and only the magnitude
guard applies. -/
def acimSlip (env : Env) (slip_gain iq flux : ℚ) : ℚ :=
  if flux = 0 then 0
  else
    let slip_velocity := slip_gain * (iq / flux)
    if 1 / 10 * env.current_meas_hz < |slip_velocity| then 0 else slip_velocity

/-- The ACIM-specific block of `Motor::update` (motor.cpp lines 448-476):
optional auto-flux update of `Id_setpoint`, rotor flux tracking, guarded
slip velocity, and the async phase bookkeeping.  Returns the updated
`(id, phase, phase_vel)` and state. -/
def acim_block (env : Env) (id iq phase phase_vel : ℚ) (s : MotorState) :
    ℚ × ℚ × ℚ × MotorState :=
  let ids :=
    if s.config.acim_autoflux_enable then
      let abs_iq := |iq|
      let gain :=
        if id < abs_iq then s.config.acim_autoflux_attack_gain
        else s.config.acim_autoflux_decay_gain
      let id := id + gain * (abs_iq - id) * env.current_meas_period
      let id := clampQ id s.config.acim_autoflux_min_Id s.effective_current_lim_
      (id, { s with current_control := { s.current_control with Id_setpoint := id } })
    else (id, s)
  let id := ids.1
  let s := ids.2
  let dflux_by_dt := s.config.acim_slip_velocity * (id - s.current_control.acim_rotor_flux)
  let flux := s.current_control.acim_rotor_flux + dflux_by_dt * env.current_meas_period
  let s := { s with current_control := { s.current_control with acim_rotor_flux := flux } }
  let slip_velocity := acimSlip env s.config.acim_slip_velocity iq flux
  let phase_vel := phase_vel + slip_velocity
  let s := { s with current_control := { s.current_control with async_phase_vel := slip_velocity } }
  let off := env.wrap_pm_pi (s.current_control.async_phase_offset + slip_velocity * env.current_meas_period)
  let s := { s with current_control := { s.current_control with async_phase_offset := off } }
  let phase := env.wrap_pm_pi (phase + off)
  (id, phase, phase_vel, s)

/-- `Motor::update` (motor.cpp lines 430-488): direction handling,
torque-to-current mapping, clamping to the effective current limit, the
ACIM block, mid-PWM phase prediction, and dispatch on `motor_type`. -/
def update (env : Env) (torque_setpoint phase_in phase_vel_in : ℚ)
    (s : MotorState) : Bool × MotorState :=
  let phase := phase_in * s.config.direction
  let phase_vel := phase_vel_in * s.config.direction
  let current_setpoint :=
    if s.config.motor_type = MOTOR_TYPE_ACIM then
      torque_setpoint /
        (s.config.torque_constant * max s.current_control.acim_rotor_flux s.config.acim_gain_min_flux)
    else
      torque_setpoint / s.config.torque_constant
  let current_setpoint := current_setpoint * s.config.direction
  let ilim := s.effective_current_lim_
  let id := clampQ s.current_control.Id_setpoint (-ilim) ilim
  let iq := clampQ current_setpoint (-ilim) ilim
  let blk :=
    if s.config.motor_type = MOTOR_TYPE_ACIM then acim_block env id iq phase phase_vel s
    else (id, phase, phase_vel, s)
  let id := blk.1
  let phase := blk.2.1
  let phase_vel := blk.2.2.1
  let s2 := blk.2.2.2
  let pwm_phase := phase + 3 / 2 * env.current_meas_period * phase_vel
  if s2.config.motor_type = MOTOR_TYPE_HIGH_CURRENT then
    FOC_current env id iq phase pwm_phase phase_vel s2
  else if s2.config.motor_type = MOTOR_TYPE_ACIM then
    FOC_current env id iq phase pwm_phase phase_vel s2
  else if s2.config.motor_type = MOTOR_TYPE_GIMBAL then
    FOC_voltage env id iq pwm_phase s2
  else
    (false, set_error ERROR_NOT_IMPLEMENTED_MOTOR_TYPE s2)

/-- `Motor::setup` (motor.cpp lines 79-106).  `gate_ok` models the
result of `gate_driver_.init()`; `set_gain` models `opamp_.set_gain`,
returning the actual gain on success and `none` on failure. -/
def setup (gate_ok : Bool) (set_gain : ℚ → Option ℚ) (s : MotorState) :
    Bool × MotorState :=
  if gate_ok = false then (false, set_error ERROR_DRV_FAULT s)
  else
    let kMargin : ℚ := 9 / 10
    let kTripMargin : ℚ := 1
    let max_output_swing : ℚ := 27 / 20
    let max_unity_gain_current := kMargin * max_output_swing * s.shunt_conductance
    let requested_gain := max_unity_gain_current / s.config.requested_current_range
    match set_gain requested_gain with
    | none => (false, s)
    | some actual_gain =>
      let s := { s with phase_current_rev_gain := 1 / actual_gain }
      let s :=
        { s with
          current_control :=
            { s.current_control with
              max_allowed_current := max_unity_gain_current * (1 / actual_gain) } }
      let s :=
        { s with
          current_control :=
            { s.current_control with
              overcurrent_trip_level := kTripMargin / kMargin * s.current_control.max_allowed_current } }
      (true, s)

/-- The tail of `Motor::measure_phase_inductance` (motor.cpp lines
243-253): the computation performed once the accumulation loop has run to
completion with no axis error.  `Ialpha0` / `Ialpha1` are the accumulated
alpha currents for the low / high test voltage (5000 cycles each). -/
def measure_phase_inductance_tail (env : Env) (voltage_low voltage_high Ialpha0 Ialpha1 : ℚ)
    (s : MotorState) : Bool × MotorState :=
  let v_L := 1 / 2 * (voltage_high - voltage_low)
  let dI_by_dt := (Ialpha1 - Ialpha0) / (env.current_meas_period * 5000)
  let L := v_L / dI_by_dt
  let s := { s with config := { s.config with phase_inductance := L } }
  if L < 2 / 1000000 ∨ 4000 / 1000000 < L then
    (false, set_error ERROR_PHASE_INDUCTANCE_OUT_OF_RANGE s)
  else
    (true, s)

/-- The identified inductance of `measure_phase_inductance` as a value
(motor.cpp lines 243-247). -/
def identified_L (env : Env) (voltage_low voltage_high Ialpha0 Ialpha1 : ℚ) : ℚ :=
  1 / 2 * (voltage_high - voltage_low) / ((Ialpha1 - Ialpha0) / (env.current_meas_period * 5000))

/-- An operation result fails through `set_error`: whenever it reports
failure, some specific nonzero error kind has been OR-ed into the motor
error bitmask, the axis has been notified with `ERROR_MOTOR_FAILED`, and
the PWM has been disarmed. -/
def failsViaSetError (pre : MotorState) (out : Bool × MotorState) : Prop :=
  out.1 = false →
    (∃ k, k ∈ motorErrorBits ∧ k ≠ 0 ∧ out.2.error = pre.error ||| k)
      ∧ out.2.axis_error = pre.axis_error ||| AXIS_ERROR_MOTOR_FAILED
      ∧ out.2.armed = false

end Motor

/-- A concrete configuration used for concrete evaluations of the model:
a high-current motor with a 10 A limit and no current-limit margin. -/
def cfg0 : Config :=
  { motor_type := MOTOR_TYPE_HIGH_CURRENT
    current_lim := 10
    current_lim_margin := 0
    torque_lim := 1
    phase_resistance := 1 / 10
    phase_inductance := 1 / 10000
    torque_constant := 1 / 10
    pole_pairs := 7
    direction := 1
    R_wL_FF_enable := false
    bEMF_FF_enable := false
    current_control_bandwidth := 1000
    requested_current_range := 60
    calibration_current := 10
    resistance_calib_max_voltage := 2
    acim_slip_velocity := 147 / 10
    acim_gain_min_flux := 1 / 100
    acim_autoflux_enable := false
    acim_autoflux_min_Id := 1 / 10
    acim_autoflux_attack_gain := 10
    acim_autoflux_decay_gain := 1
    pre_calibrated := false }

/-- A concrete current controller state used for concrete evaluations. -/
def cc0 : CurrentControl :=
  { p_gain := 1 / 10
    i_gain := 100
    v_current_control_integral_d := 0
    v_current_control_integral_q := 0
    Ibus := 0
    final_v_alpha := 0
    final_v_beta := 0
    Id_setpoint := 0
    Iq_setpoint := 0
    Id_measured := 0
    Iq_measured := 0
    I_measured_report_filter_k := 1 / 100
    max_allowed_current := 60
    overcurrent_trip_level := 100
    acim_rotor_flux := 0
    async_phase_vel := 0
    async_phase_offset := 0 }

/-- A concrete armed, error-free motor state used for concrete evaluations. -/
def s0 : MotorState :=
  { config := cfg0
    current_control := cc0
    error := 0
    axis_error := 0
    armed := true
    effective_current_lim_ := 10
    next_timings := (0, 0, 0)
    next_timings_valid := false
    current_meas_phB := 0
    current_meas_phC := 0
    phase_current_rev_gain := 1
    shunt_conductance := 2000
    is_calibrated := false }

/-- A concrete environment used for concrete evaluations: 12 V bus, 8 kHz
control loop, 3500-count PWM period, the modelled SVM, identity-like
stand-ins for the external trig / sqrt / thermistor / wrap collaborators
(these are opaque lookup tables in the firmware; the claims quantify over
them, and the concrete instances below satisfy every hypothesis a witness
needs: `cosf 0 = 1`, `sinf 0 = 0`, `sqrtf 1 = 1`, `sqrtf 0 = 0`). -/
def env0 : Env :=
  { vbus_voltage := 12
    current_meas_period := 1 / 8000
    current_meas_hz := 8000
    cosf := fun _ => 1
    sinf := fun _ => 0
    sqrtf := fun x => x
    svm := SVM_model
    motor_therm_get_current_limit := fun lim => lim
    fet_therm_get_current_limit := fun lim => lim
    wrap_pm_pi := fun x => x
    period_clocks := 3500 }

/-- The modelled SVM satisfies the spec's success contract: the flag is
true exactly on the linear range `mα² + mβ² ≤ 3/4`. -/
theorem svm_model_ok : SVMok SVM_model := by
  intro a b
  unfold SVM_model
  split_ifs with h <;> simp [h]

/-- On success the modelled SVM's on-times lie in `[0,1]`. -/
theorem svm_model_times_in_unit (a b : ℚ) (h : a ^ 2 + b ^ 2 ≤ 3 / 4) :
    0 ≤ (SVM_model a b).1 ∧ (SVM_model a b).1 ≤ 1 ∧
    0 ≤ (SVM_model a b).2.1 ∧ (SVM_model a b).2.1 ≤ 1 ∧
    0 ≤ (SVM_model a b).2.2.1 ∧ (SVM_model a b).2.2.1 ≤ 1 := by
  have ha : a ^ 2 ≤ 3 / 4 := by nlinarith [sq_nonneg b]
  have ha1 : -1 ≤ a := by nlinarith
  have ha2 : a ≤ 1 := by nlinarith
  have hq : (-(a / 4) + b / 3) ^ 2 ≤ 25 / 144 * (a ^ 2 + b ^ 2) := by
    nlinarith [sq_nonneg (a / 3 + b / 4)]
  have hq' : (-(a / 4) - b / 3) ^ 2 ≤ 25 / 144 * (a ^ 2 + b ^ 2) := by
    nlinarith [sq_nonneg (a / 3 - b / 4)]
  have hb1 : -(1 / 2) ≤ -(a / 4) + b / 3 ∧ -(a / 4) + b / 3 ≤ 1 / 2 := by
    constructor <;> nlinarith
  have hb2 : -(1 / 2) ≤ -(a / 4) - b / 3 ∧ -(a / 4) - b / 3 ≤ 1 / 2 := by
    constructor <;> nlinarith
  unfold SVM_model
  rw [if_pos h]
  refine ⟨by norm_num; linarith, by norm_num; linarith, ?_, ?_, ?_, ?_⟩ <;>
    · simp only
      linarith [hb1.1, hb1.2, hb2.1, hb2.2]

/-- C7: Immediately after any call to `arm()` (whether it returns true or
false), the current-controller state satisfies
`v_current_control_integral_d = v_current_control_integral_q =
acim_rotor_flux = Ibus = 0`: `arm()` resets the controller state before
waiting for the current measurement and before unlocking PWM. -/
theorem arm_resets_controller_state (wait_ok : Bool) (s : MotorState) :
    (Motor.arm wait_ok s).2.current_control.v_current_control_integral_d = 0
    ∧ (Motor.arm wait_ok s).2.current_control.v_current_control_integral_q = 0
    ∧ (Motor.arm wait_ok s).2.current_control.acim_rotor_flux = 0
    ∧ (Motor.arm wait_ok s).2.current_control.Ibus = 0 := by
  cases wait_ok <;> simp [Motor.arm, Motor.reset_current_control]

/-- C5: `effective_current_lim()` returns
`min(config.current_lim, hw_cap, motor_thermistor_cap, fet_thermistor_cap)`
where the hardware cap is `0.98 · (1/√3) · vbus_voltage` for a gimbal
motor and `max_allowed_current` otherwise (in particular for
`HIGH_CURRENT` and `ACIM`); the value is stored in
`effective_current_lim_` and never exceeds any of the four caps. -/
theorem effective_current_lim_is_min_of_caps (env : Env) (s : MotorState) :
    (Motor.effective_current_lim env s).1 =
      min (min (min s.config.current_lim
            (if s.config.motor_type = MOTOR_TYPE_GIMBAL then
              49 / 50 * one_by_sqrt3 * env.vbus_voltage
             else s.current_control.max_allowed_current))
          (env.motor_therm_get_current_limit s.config.current_lim))
        (env.fet_therm_get_current_limit s.config.current_lim)
    ∧ (Motor.effective_current_lim env s).2.effective_current_lim_ =
        (Motor.effective_current_lim env s).1
    ∧ (Motor.effective_current_lim env s).1 ≤ s.config.current_lim
    ∧ (Motor.effective_current_lim env s).1 ≤
        (if s.config.motor_type = MOTOR_TYPE_GIMBAL then
          49 / 50 * one_by_sqrt3 * env.vbus_voltage
         else s.current_control.max_allowed_current)
    ∧ (Motor.effective_current_lim env s).1 ≤
        env.motor_therm_get_current_limit s.config.current_lim
    ∧ (Motor.effective_current_lim env s).1 ≤
        env.fet_therm_get_current_limit s.config.current_lim := by
  unfold Motor.effective_current_lim
  split_ifs with h <;>
  · refine ⟨rfl, rfl, ?_, ?_, ?_, ?_⟩
    · exact le_trans (min_le_left _ _) (le_trans (min_le_left _ _) (min_le_left _ _))
    · exact le_trans (min_le_left _ _) (le_trans (min_le_left _ _) (min_le_right _ _))
    · exact le_trans (min_le_left _ _) (min_le_right _ _)
    · exact min_le_right _ _

/-- C6: the vector-modulation saturation / anti-windup step of
`FOC_current`.  With `s = 0.80 · (√3/2) / √(mod_d² + mod_q²)` (the square
root being nonnegative): if `s < 1` the modulation vector is scaled by
`s` and each integrator is multiplied by `0.99` with no error
integration, so its magnitude does not increase; in the complementary
case (`√(mod_d² + mod_q²) ≤ 0.80·(√3/2)`, i.e. `s ≥ 1` in the firmware's
IEEE arithmetic, where a zero denominator makes `s = +∞`) the integrators
are updated by `V_int += err · i_gain · Ts` and the modulation vector is
unchanged. -/
theorem antiWindup_saturation (env : Env)
    (mod_d mod_q Ierr_d Ierr_q vint_d vint_q i_gain : ℚ) :
    (0 < env.sqrtf (mod_d ^ 2 + mod_q ^ 2) →
      4 / 5 * sqrt3_by_2 / env.sqrtf (mod_d ^ 2 + mod_q ^ 2) < 1 →
      Motor.antiWindup env mod_d mod_q Ierr_d Ierr_q vint_d vint_q i_gain =
        (4 / 5 * sqrt3_by_2 / env.sqrtf (mod_d ^ 2 + mod_q ^ 2) * mod_d,
         4 / 5 * sqrt3_by_2 / env.sqrtf (mod_d ^ 2 + mod_q ^ 2) * mod_q,
         99 / 100 * vint_d, 99 / 100 * vint_q)
      ∧ |99 / 100 * vint_d| ≤ |vint_d| ∧ |99 / 100 * vint_q| ≤ |vint_q|)
    ∧ (env.sqrtf (mod_d ^ 2 + mod_q ^ 2) ≤ 4 / 5 * sqrt3_by_2 →
      Motor.antiWindup env mod_d mod_q Ierr_d Ierr_q vint_d vint_q i_gain =
        (mod_d, mod_q,
         vint_d + Ierr_d * (i_gain * env.current_meas_period),
         vint_q + Ierr_q * (i_gain * env.current_meas_period))) := by
  constructor
  · intro h0 h1
    have hc : 4 / 5 * sqrt3_by_2 < env.sqrtf (mod_d ^ 2 + mod_q ^ 2) :=
      (div_lt_one h0).mp h1
    unfold Motor.antiWindup
    rw [if_pos hc]
    refine ⟨rfl, ?_, ?_⟩
    · rw [abs_mul]
      have h99 : |(99 / 100 : ℚ)| = 99 / 100 := by norm_num
      rw [h99]
      nlinarith [abs_nonneg vint_d]
    · rw [abs_mul]
      have h99 : |(99 / 100 : ℚ)| = 99 / 100 := by norm_num
      rw [h99]
      nlinarith [abs_nonneg vint_q]
  · intro h2
    unfold Motor.antiWindup
    rw [if_neg (not_lt.mpr h2)]

/-- Witness for `antiWindup_saturation`: both branches at concrete inputs
(`sqrtf 1 = 1 > 0.8·(√3/2)` for the saturated case, `sqrtf 0 = 0` for the
unsaturated one). -/
theorem antiWindup_saturation_witness :
    (Motor.antiWindup env0 1 0 5 7 2 3 100 =
      (4 / 5 * sqrt3_by_2 / env0.sqrtf (1 ^ 2 + 0 ^ 2) * 1,
       4 / 5 * sqrt3_by_2 / env0.sqrtf (1 ^ 2 + 0 ^ 2) * 0,
       99 / 100 * 2, 99 / 100 * 3)
      ∧ |99 / 100 * (2 : ℚ)| ≤ |(2 : ℚ)| ∧ |99 / 100 * (3 : ℚ)| ≤ |(3 : ℚ)|)
    ∧ Motor.antiWindup env0 0 0 5 7 2 3 100 =
        (0, 0, 2 + 5 * (100 * env0.current_meas_period),
         3 + 7 * (100 * env0.current_meas_period)) :=
  ⟨(antiWindup_saturation env0 1 0 5 7 2 3 100).1
      (by norm_num [env0]) (by norm_num [env0, sqrt3_by_2]),
   (antiWindup_saturation env0 0 0 5 7 2 3 100).2
      (by norm_num [env0, sqrt3_by_2])⟩

/-- A concrete ACIM motor state used for concrete evaluations. -/
def sACIM : MotorState :=
  { s0 with config := { cfg0 with motor_type := MOTOR_TYPE_ACIM } }

/-- The ACIM block of `update` only writes current-controller fields; the
configuration is untouched. -/
theorem acim_block_preserves_config (env : Env) (id iq phase phase_vel : ℚ)
    (s : MotorState) :
    (Motor.acim_block env id iq phase phase_vel s).2.2.2.config = s.config := by
  unfold Motor.acim_block
  split_ifs <;> rfl

/-- C8: in `update()` for an ACIM motor, the slip velocity
`acim_slip_velocity · (iq / acim_rotor_flux)` is replaced by exactly 0
whenever it is NaN or its absolute value exceeds `0.1 · current_meas_hz`
(in particular whenever the rotor flux is zero, where the IEEE quotient
is `±∞` or NaN), the slip actually used is always bounded by
`0.1 · current_meas_hz`, and `update()` proceeds to the FOC dispatch
without error. -/
theorem acim_slip_guard (env : Env) (slip_gain iq flux : ℚ)
    (hhz : 0 ≤ env.current_meas_hz) :
    (flux = 0 → Motor.acimSlip env slip_gain iq flux = 0)
    ∧ (1 / 10 * env.current_meas_hz < |slip_gain * (iq / flux)| →
        Motor.acimSlip env slip_gain iq flux = 0)
    ∧ |Motor.acimSlip env slip_gain iq flux| ≤ 1 / 10 * env.current_meas_hz
    ∧ (∀ tq ph om : ℚ, ∀ s : MotorState, s.config.motor_type = MOTOR_TYPE_ACIM →
        Motor.update env tq ph om s =
          Motor.FOC_current env
            (Motor.acim_block env
              (Motor.clampQ s.current_control.Id_setpoint (-s.effective_current_lim_)
                s.effective_current_lim_)
              (Motor.clampQ
                (tq / (s.config.torque_constant *
                    max s.current_control.acim_rotor_flux s.config.acim_gain_min_flux) *
                  s.config.direction)
                (-s.effective_current_lim_) s.effective_current_lim_)
              (ph * s.config.direction) (om * s.config.direction) s).1
            (Motor.clampQ
              (tq / (s.config.torque_constant *
                  max s.current_control.acim_rotor_flux s.config.acim_gain_min_flux) *
                s.config.direction)
              (-s.effective_current_lim_) s.effective_current_lim_)
            (Motor.acim_block env
              (Motor.clampQ s.current_control.Id_setpoint (-s.effective_current_lim_)
                s.effective_current_lim_)
              (Motor.clampQ
                (tq / (s.config.torque_constant *
                    max s.current_control.acim_rotor_flux s.config.acim_gain_min_flux) *
                  s.config.direction)
                (-s.effective_current_lim_) s.effective_current_lim_)
              (ph * s.config.direction) (om * s.config.direction) s).2.1
            ((Motor.acim_block env
              (Motor.clampQ s.current_control.Id_setpoint (-s.effective_current_lim_)
                s.effective_current_lim_)
              (Motor.clampQ
                (tq / (s.config.torque_constant *
                    max s.current_control.acim_rotor_flux s.config.acim_gain_min_flux) *
                  s.config.direction)
                (-s.effective_current_lim_) s.effective_current_lim_)
              (ph * s.config.direction) (om * s.config.direction) s).2.1 +
              3 / 2 * env.current_meas_period *
              (Motor.acim_block env
                (Motor.clampQ s.current_control.Id_setpoint (-s.effective_current_lim_)
                  s.effective_current_lim_)
                (Motor.clampQ
                  (tq / (s.config.torque_constant *
                      max s.current_control.acim_rotor_flux s.config.acim_gain_min_flux) *
                    s.config.direction)
                  (-s.effective_current_lim_) s.effective_current_lim_)
                (ph * s.config.direction) (om * s.config.direction) s).2.2.1)
            (Motor.acim_block env
              (Motor.clampQ s.current_control.Id_setpoint (-s.effective_current_lim_)
                s.effective_current_lim_)
              (Motor.clampQ
                (tq / (s.config.torque_constant *
                    max s.current_control.acim_rotor_flux s.config.acim_gain_min_flux) *
                  s.config.direction)
                (-s.effective_current_lim_) s.effective_current_lim_)
              (ph * s.config.direction) (om * s.config.direction) s).2.2.1
            (Motor.acim_block env
              (Motor.clampQ s.current_control.Id_setpoint (-s.effective_current_lim_)
                s.effective_current_lim_)
              (Motor.clampQ
                (tq / (s.config.torque_constant *
                    max s.current_control.acim_rotor_flux s.config.acim_gain_min_flux) *
                  s.config.direction)
                (-s.effective_current_lim_) s.effective_current_lim_)
              (ph * s.config.direction) (om * s.config.direction) s).2.2.2) := by
  refine ⟨?_, ?_, ?_, ?_⟩
  · intro hf
    simp [Motor.acimSlip, hf]
  · intro hg
    by_cases hf : flux = 0
    · simp [Motor.acimSlip, hf]
    · unfold Motor.acimSlip
      rw [if_neg hf]
      simp only
      rw [if_pos hg]
  · by_cases hf : flux = 0
    · simp only [Motor.acimSlip, if_pos hf, abs_zero]
      linarith
    · unfold Motor.acimSlip
      rw [if_neg hf]
      simp only
      split_ifs with hg
      · simpa using by linarith
      · exact not_lt.mp hg
  · intro tq ph om s h
    have hcfg : ∀ a b c d : ℚ,
        (Motor.acim_block env a b c d s).2.2.2.config = s.config :=
      fun a b c d => acim_block_preserves_config env a b c d s
    simp only [Motor.update, if_pos h]
    rw [hcfg, h]
    rw [if_neg (by norm_num [MOTOR_TYPE_ACIM, MOTOR_TYPE_HIGH_CURRENT]),
      if_pos rfl]

/-- Witness for `acim_slip_guard`: the zero-flux substitution, the
magnitude-guard substitution, and the ACIM dispatch equation at concrete
inputs. -/
theorem acim_slip_guard_witness :
    Motor.acimSlip env0 (147 / 10) 1 0 = 0
    ∧ Motor.acimSlip env0 (147 / 10) 10000000 (1 / 1000000000) = 0
    ∧ Motor.update env0 1 0 0 sACIM =
        Motor.FOC_current env0
          (Motor.acim_block env0
            (Motor.clampQ sACIM.current_control.Id_setpoint (-sACIM.effective_current_lim_)
              sACIM.effective_current_lim_)
            (Motor.clampQ
              ((1 : ℚ) / (sACIM.config.torque_constant *
                  max sACIM.current_control.acim_rotor_flux sACIM.config.acim_gain_min_flux) *
                sACIM.config.direction)
              (-sACIM.effective_current_lim_) sACIM.effective_current_lim_)
            ((0 : ℚ) * sACIM.config.direction) ((0 : ℚ) * sACIM.config.direction) sACIM).1
          (Motor.clampQ
            ((1 : ℚ) / (sACIM.config.torque_constant *
                max sACIM.current_control.acim_rotor_flux sACIM.config.acim_gain_min_flux) *
              sACIM.config.direction)
            (-sACIM.effective_current_lim_) sACIM.effective_current_lim_)
          (Motor.acim_block env0
            (Motor.clampQ sACIM.current_control.Id_setpoint (-sACIM.effective_current_lim_)
              sACIM.effective_current_lim_)
            (Motor.clampQ
              ((1 : ℚ) / (sACIM.config.torque_constant *
                  max sACIM.current_control.acim_rotor_flux sACIM.config.acim_gain_min_flux) *
                sACIM.config.direction)
              (-sACIM.effective_current_lim_) sACIM.effective_current_lim_)
            ((0 : ℚ) * sACIM.config.direction) ((0 : ℚ) * sACIM.config.direction) sACIM).2.1
          ((Motor.acim_block env0
            (Motor.clampQ sACIM.current_control.Id_setpoint (-sACIM.effective_current_lim_)
              sACIM.effective_current_lim_)
            (Motor.clampQ
              ((1 : ℚ) / (sACIM.config.torque_constant *
                  max sACIM.current_control.acim_rotor_flux sACIM.config.acim_gain_min_flux) *
                sACIM.config.direction)
              (-sACIM.effective_current_lim_) sACIM.effective_current_lim_)
            ((0 : ℚ) * sACIM.config.direction) ((0 : ℚ) * sACIM.config.direction) sACIM).2.1 +
            3 / 2 * env0.current_meas_period *
            (Motor.acim_block env0
              (Motor.clampQ sACIM.current_control.Id_setpoint (-sACIM.effective_current_lim_)
                sACIM.effective_current_lim_)
              (Motor.clampQ
                ((1 : ℚ) / (sACIM.config.torque_constant *
                    max sACIM.current_control.acim_rotor_flux sACIM.config.acim_gain_min_flux) *
                  sACIM.config.direction)
                (-sACIM.effective_current_lim_) sACIM.effective_current_lim_)
              ((0 : ℚ) * sACIM.config.direction) ((0 : ℚ) * sACIM.config.direction) sACIM).2.2.1)
          (Motor.acim_block env0
            (Motor.clampQ sACIM.current_control.Id_setpoint (-sACIM.effective_current_lim_)
              sACIM.effective_current_lim_)
            (Motor.clampQ
              ((1 : ℚ) / (sACIM.config.torque_constant *
                  max sACIM.current_control.acim_rotor_flux sACIM.config.acim_gain_min_flux) *
                sACIM.config.direction)
              (-sACIM.effective_current_lim_) sACIM.effective_current_lim_)
            ((0 : ℚ) * sACIM.config.direction) ((0 : ℚ) * sACIM.config.direction) sACIM).2.2.1
          (Motor.acim_block env0
            (Motor.clampQ sACIM.current_control.Id_setpoint (-sACIM.effective_current_lim_)
              sACIM.effective_current_lim_)
            (Motor.clampQ
              ((1 : ℚ) / (sACIM.config.torque_constant *
                  max sACIM.current_control.acim_rotor_flux sACIM.config.acim_gain_min_flux) *
                sACIM.config.direction)
              (-sACIM.effective_current_lim_) sACIM.effective_current_lim_)
            ((0 : ℚ) * sACIM.config.direction) ((0 : ℚ) * sACIM.config.direction) sACIM).2.2.2 :=
  ⟨(acim_slip_guard env0 (147 / 10) 1 0 (by norm_num [env0])).1 rfl,
   (acim_slip_guard env0 (147 / 10) 10000000 (1 / 1000000000)
      (by norm_num [env0])).2.1 (by norm_num [env0]),
   (acim_slip_guard env0 1 1 1 (by norm_num [env0])).2.2.2 1 0 0 sACIM rfl⟩

/-- C3: `enqueue_modulation_timings` on any input pair: a NaN input
(embedded as `none`) sets `MODULATION_IS_NAN`, disarms and returns false;
a modulation magnitude outside the SVM linear range (given the spec's SVM
success contract) sets `MODULATION_MAGNITUDE`, disarms and returns false;
otherwise all three `next_timings` entries are written,
`next_timings_valid` is set to true and true is returned.  In both
failure cases `next_timings_valid` (and `next_timings`) is not assigned. -/
theorem enqueue_modulation_timings_cases (env : Env) (s : MotorState)
    (hsvm : SVMok env.svm) (ma mb : Option ℚ) :
    ((ma = none ∨ mb = none) →
      Motor.enqueue_modulation_timings env ma mb s =
        (false, Motor.set_error ERROR_MODULATION_IS_NAN s)
      ∧ (Motor.enqueue_modulation_timings env ma mb s).2.error =
          s.error ||| ERROR_MODULATION_IS_NAN
      ∧ (Motor.enqueue_modulation_timings env ma mb s).2.armed = false
      ∧ (Motor.enqueue_modulation_timings env ma mb s).2.next_timings_valid =
          s.next_timings_valid
      ∧ (Motor.enqueue_modulation_timings env ma mb s).2.next_timings = s.next_timings)
    ∧ (∀ a b : ℚ, ma = some a → mb = some b → 3 / 4 < a ^ 2 + b ^ 2 →
      Motor.enqueue_modulation_timings env ma mb s =
        (false, Motor.set_error ERROR_MODULATION_MAGNITUDE s)
      ∧ (Motor.enqueue_modulation_timings env ma mb s).2.error =
          s.error ||| ERROR_MODULATION_MAGNITUDE
      ∧ (Motor.enqueue_modulation_timings env ma mb s).2.armed = false
      ∧ (Motor.enqueue_modulation_timings env ma mb s).2.next_timings_valid =
          s.next_timings_valid
      ∧ (Motor.enqueue_modulation_timings env ma mb s).2.next_timings = s.next_timings)
    ∧ (∀ a b : ℚ, ma = some a → mb = some b → a ^ 2 + b ^ 2 ≤ 3 / 4 →
      (Motor.enqueue_modulation_timings env ma mb s).1 = true
      ∧ (Motor.enqueue_modulation_timings env ma mb s).2.next_timings =
          (Motor.dutyCount env.period_clocks (env.svm a b).1,
           Motor.dutyCount env.period_clocks (env.svm a b).2.1,
           Motor.dutyCount env.period_clocks (env.svm a b).2.2.1)
      ∧ (Motor.enqueue_modulation_timings env ma mb s).2.next_timings_valid = true
      ∧ (Motor.enqueue_modulation_timings env ma mb s).2.error = s.error
      ∧ (Motor.enqueue_modulation_timings env ma mb s).2.armed = s.armed) := by
  refine ⟨?_, ?_, ?_⟩
  · rintro (rfl | rfl)
    · simp [Motor.enqueue_modulation_timings, Motor.set_error]
    · cases ma <;> simp [Motor.enqueue_modulation_timings, Motor.set_error]
  · rintro a b rfl rfl hmag
    have hfail : (env.svm a b).2.2.2 = false := by
      have := hsvm a b
      rcases hb : (env.svm a b).2.2.2 with _ | _
      · rfl
      · exact absurd ((this).mp hb) (not_le.mpr hmag)
    simp [Motor.enqueue_modulation_timings, hfail, Motor.set_error]
  · rintro a b rfl rfl hmag
    have hok : (env.svm a b).2.2.2 = true := (hsvm a b).mpr hmag
    simp [Motor.enqueue_modulation_timings, hok]

/-- Witness for `enqueue_modulation_timings_cases`: the NaN rejection,
the magnitude rejection and the success path at concrete inputs. -/
theorem enqueue_modulation_timings_cases_witness :
    (Motor.enqueue_modulation_timings env0 none (some 0) s0).2.error =
      s0.error ||| ERROR_MODULATION_IS_NAN
    ∧ (Motor.enqueue_modulation_timings env0 (some 1) (some 1) s0).2.error =
      s0.error ||| ERROR_MODULATION_MAGNITUDE
    ∧ (Motor.enqueue_modulation_timings env0 (some 0) (some (1 / 2)) s0).1 = true
    ∧ (Motor.enqueue_modulation_timings env0 (some 0) (some (1 / 2)) s0).2.next_timings =
        (Motor.dutyCount env0.period_clocks (env0.svm 0 (1 / 2)).1,
         Motor.dutyCount env0.period_clocks (env0.svm 0 (1 / 2)).2.1,
         Motor.dutyCount env0.period_clocks (env0.svm 0 (1 / 2)).2.2.1)
    ∧ (Motor.enqueue_modulation_timings env0 (some 0) (some (1 / 2)) s0).2.next_timings_valid =
        true :=
  ⟨((enqueue_modulation_timings_cases env0 s0 svm_model_ok none (some 0)).1
      (Or.inl rfl)).2.1,
   ((enqueue_modulation_timings_cases env0 s0 svm_model_ok (some 1) (some 1)).2.1
      1 1 rfl rfl (by norm_num)).2.1,
   ((enqueue_modulation_timings_cases env0 s0 svm_model_ok (some 0) (some (1 / 2))).2.2
      0 (1 / 2) rfl rfl (by norm_num)).1,
   ((enqueue_modulation_timings_cases env0 s0 svm_model_ok (some 0) (some (1 / 2))).2.2
      0 (1 / 2) rfl rfl (by norm_num)).2.1,
   ((enqueue_modulation_timings_cases env0 s0 svm_model_ok (some 0) (some (1 / 2))).2.2
      0 (1 / 2) rfl rfl (by norm_num)).2.2.1⟩

/-- C9 (amended): for every successful call to
`enqueue_modulation_timings` with SVM on-times in `[0,1]`, each stored
duty count equals the product `t_i · TIM_1_8_PERIOD_CLOCKS` truncated
toward zero, i.e. `⌊t_i · TIM_1_8_PERIOD_CLOCKS⌋` — the C cast
`(uint16_t)(t * (float)TIM_1_8_PERIOD_CLOCKS)` truncates rather than
rounding to nearest. -/
theorem duty_counts_truncate (env : Env) (s : MotorState) (a b tA tB tC : ℚ)
    (hsvm : env.svm a b = (tA, tB, tC, true))
    (h0A : 0 ≤ tA) (h1A : tA ≤ 1) (h0B : 0 ≤ tB) (h1B : tB ≤ 1)
    (h0C : 0 ≤ tC) (h1C : tC ≤ 1) :
    (Motor.enqueue_modulation_timings env (some a) (some b) s).1 = true
    ∧ ((Motor.enqueue_modulation_timings env (some a) (some b) s).2.next_timings.1 : ℤ) =
        ⌊tA * (env.period_clocks : ℚ)⌋
    ∧ ((Motor.enqueue_modulation_timings env (some a) (some b) s).2.next_timings.2.1 : ℤ) =
        ⌊tB * (env.period_clocks : ℚ)⌋
    ∧ ((Motor.enqueue_modulation_timings env (some a) (some b) s).2.next_timings.2.2 : ℤ) =
        ⌊tC * (env.period_clocks : ℚ)⌋ := by
  have hfloor : ∀ t : ℚ, 0 ≤ t → ((Motor.dutyCount env.period_clocks t : ℕ) : ℤ) =
      ⌊t * (env.period_clocks : ℚ)⌋ := by
    intro t ht
    unfold Motor.dutyCount
    refine Int.toNat_of_nonneg (Int.floor_nonneg.mpr ?_)
    positivity
  simp only [Motor.enqueue_modulation_timings, hsvm]
  exact ⟨rfl, hfloor tA h0A, hfloor tB h0B, hfloor tC h0C⟩

/-- Counterexample to C9 as stated: at the concrete call
`enqueue_modulation_timings(0, 1/2)` the SVM on-time `tC = 1/3` lies in
`[0,1]` and the call succeeds, the product `tC · 3500 = 1166.67` has
nearest integer `1167`, but the stored duty count is `1166` (the
truncated product), so the stored count is not `round(t · period)`. -/
theorem duty_count_not_nearest_integer :
    env0.svm 0 (1 / 2) = (1 / 2, 2 / 3, 1 / 3, true)
    ∧ (0 : ℚ) ≤ 1 / 3 ∧ (1 / 3 : ℚ) ≤ 1
    ∧ (Motor.enqueue_modulation_timings env0 (some 0) (some (1 / 2)) s0).1 = true
    ∧ (Motor.enqueue_modulation_timings env0 (some 0) (some (1 / 2)) s0).2.next_timings.2.2 =
        1166
    ∧ round ((1 / 3 : ℚ) * (env0.period_clocks : ℚ)) = 1167
    ∧ (1166 : ℤ) ≠ 1167 := by
  refine ⟨by norm_num [env0, SVM_model], by norm_num, by norm_num, ?_, ?_, ?_, by norm_num⟩
  · simp [Motor.enqueue_modulation_timings, env0, SVM_model, Motor.set_error]
    norm_num
  · simp only [Motor.enqueue_modulation_timings]
    norm_num [env0, SVM_model, Motor.dutyCount]
    decide
  · norm_num [round_eq, env0]

/-- Witness for `duty_counts_truncate`: the success path at
`(mα, mβ) = (0, 1/2)`, where the modelled SVM returns on-times
`(1/2, 2/3, 1/3)`. -/
theorem duty_counts_truncate_witness :
    (Motor.enqueue_modulation_timings env0 (some 0) (some (1 / 2)) s0).1 = true
    ∧ ((Motor.enqueue_modulation_timings env0 (some 0) (some (1 / 2)) s0).2.next_timings.1 : ℤ) =
        ⌊(1 / 2 : ℚ) * (env0.period_clocks : ℚ)⌋
    ∧ ((Motor.enqueue_modulation_timings env0 (some 0) (some (1 / 2)) s0).2.next_timings.2.1 : ℤ) =
        ⌊(2 / 3 : ℚ) * (env0.period_clocks : ℚ)⌋
    ∧ ((Motor.enqueue_modulation_timings env0 (some 0) (some (1 / 2)) s0).2.next_timings.2.2 : ℤ) =
        ⌊(1 / 3 : ℚ) * (env0.period_clocks : ℚ)⌋ :=
  duty_counts_truncate env0 s0 0 (1 / 2) (1 / 2) (2 / 3) (1 / 3)
    (by norm_num [env0, SVM_model]) (by norm_num) (by norm_num) (by norm_num)
    (by norm_num) (by norm_num) (by norm_num)

/-- C4 (amended): when the accumulation loop of
`measure_phase_inductance` runs to completion and the identified
inductance `L` is outside `[2 µH, 4 mH]`, the call sets
`PHASE_INDUCTANCE_OUT_OF_RANGE`, disarms and returns false — but
`config.phase_inductance` has already been assigned `L` (the assignment
precedes the range check) and keeps the out-of-range value; only on a
successful call is the stored value guaranteed to lie in `[2 µH, 4 mH]`. -/
theorem measure_phase_inductance_range_check (env : Env) (s : MotorState)
    (vl vh a0 a1 : ℚ) :
    ((Motor.identified_L env vl vh a0 a1 < 2 / 1000000 ∨
        4000 / 1000000 < Motor.identified_L env vl vh a0 a1) →
      (Motor.measure_phase_inductance_tail env vl vh a0 a1 s).1 = false
      ∧ (Motor.measure_phase_inductance_tail env vl vh a0 a1 s).2.error =
          s.error ||| ERROR_PHASE_INDUCTANCE_OUT_OF_RANGE
      ∧ (Motor.measure_phase_inductance_tail env vl vh a0 a1 s).2.armed = false
      ∧ (Motor.measure_phase_inductance_tail env vl vh a0 a1 s).2.axis_error =
          s.axis_error ||| AXIS_ERROR_MOTOR_FAILED
      ∧ (Motor.measure_phase_inductance_tail env vl vh a0 a1 s).2.config.phase_inductance =
          Motor.identified_L env vl vh a0 a1)
    ∧ (¬(Motor.identified_L env vl vh a0 a1 < 2 / 1000000 ∨
        4000 / 1000000 < Motor.identified_L env vl vh a0 a1) →
      (Motor.measure_phase_inductance_tail env vl vh a0 a1 s).1 = true
      ∧ (Motor.measure_phase_inductance_tail env vl vh a0 a1 s).2.config.phase_inductance =
          Motor.identified_L env vl vh a0 a1
      ∧ 2 / 1000000 ≤ Motor.identified_L env vl vh a0 a1
      ∧ Motor.identified_L env vl vh a0 a1 ≤ 4000 / 1000000) := by
  unfold Motor.measure_phase_inductance_tail Motor.identified_L
  constructor
  · intro h
    rw [if_pos h]
    exact ⟨rfl, by simp [Motor.set_error], by simp [Motor.set_error],
      by simp [Motor.set_error], by simp [Motor.set_error]⟩
  · intro h
    rw [if_neg h]
    rcases not_or.mp h with ⟨hlo, hhi⟩
    exact ⟨rfl, rfl, not_lt.mp hlo, not_lt.mp hhi⟩

/-- Witness for `measure_phase_inductance_range_check`: an out-of-range
identification (`L = 1 H`) and an in-range one (`L = 100 µH`). -/
theorem measure_phase_inductance_range_check_witness :
    ((Motor.measure_phase_inductance_tail env0 (-1) 1 0 (5 / 8) s0).1 = false
      ∧ (Motor.measure_phase_inductance_tail env0 (-1) 1 0 (5 / 8) s0).2.error =
          s0.error ||| ERROR_PHASE_INDUCTANCE_OUT_OF_RANGE)
    ∧ ((Motor.measure_phase_inductance_tail env0 (-1) 1 0 6250 s0).1 = true
      ∧ 2 / 1000000 ≤ Motor.identified_L env0 (-1) 1 0 6250
      ∧ Motor.identified_L env0 (-1) 1 0 6250 ≤ 4000 / 1000000) :=
  ⟨⟨((measure_phase_inductance_range_check env0 s0 (-1) 1 0 (5 / 8)).1
      (by norm_num [Motor.identified_L, env0])).1,
    ((measure_phase_inductance_range_check env0 s0 (-1) 1 0 (5 / 8)).1
      (by norm_num [Motor.identified_L, env0])).2.1⟩,
   ⟨((measure_phase_inductance_range_check env0 s0 (-1) 1 0 6250).2
      (by norm_num [Motor.identified_L, env0])).1,
    ((measure_phase_inductance_range_check env0 s0 (-1) 1 0 6250).2
      (by norm_num [Motor.identified_L, env0])).2.2.1,
    ((measure_phase_inductance_range_check env0 s0 (-1) 1 0 6250).2
      (by norm_num [Motor.identified_L, env0])).2.2.2⟩⟩

/-- Counterexample to C4 as stated: with accumulated currents giving
`L = 1 H` (far outside `[2 µH, 4 mH]`), `measure_phase_inductance` sets
the error and returns false, but `config.phase_inductance` IS left
holding the out-of-range value 1. -/
theorem phase_inductance_left_out_of_range :
    (Motor.measure_phase_inductance_tail env0 (-1) 1 0 (5 / 8) s0).1 = false
    ∧ (Motor.measure_phase_inductance_tail env0 (-1) 1 0 (5 / 8) s0).2.config.phase_inductance = 1
    ∧ 4000 / 1000000 <
        (Motor.measure_phase_inductance_tail env0 (-1) 1 0 (5 / 8) s0).2.config.phase_inductance := by
  refine ⟨?_, ?_, ?_⟩ <;>
    norm_num [Motor.measure_phase_inductance_tail, Motor.set_error, env0]

/-- C1 (amended): a call to `FOC_current` whose current-sense saturation
check passes and whose measured d/q currents satisfy
`Id² + Iq² > (effective_current_lim + current_lim_margin)²` sets the
`CURRENT_LIMIT_VIOLATION` error bit, notifies the axis, disarms PWM,
returns false, and writes neither `next_timings` nor
`next_timings_valid`.  (The saturation precondition is necessary: the
`CURRENT_SENSE_SATURATION` check at the top of `FOC_current` returns
first otherwise.) -/
theorem park_d_cc_update (env : Env) (s : MotorState) (cc : CurrentControl) (phi : ℚ) :
    Motor.park_d env { s with current_control := cc } phi = Motor.park_d env s phi := rfl

theorem park_q_cc_update (env : Env) (s : MotorState) (cc : CurrentControl) (phi : ℚ) :
    Motor.park_q env { s with current_control := cc } phi = Motor.park_q env s phi := rfl

theorem FOC_current_limit_violation (env : Env) (s : MotorState)
    (Id_des Iq_des I_phase pwm_phase phase_vel : ℚ)
    (hB : ¬ s.current_control.overcurrent_trip_level < |s.current_meas_phB|)
    (hC : ¬ s.current_control.overcurrent_trip_level < |s.current_meas_phC|)
    (hviol : (s.effective_current_lim_ + s.config.current_lim_margin) ^ 2 <
        Motor.park_d env s I_phase ^ 2 + Motor.park_q env s I_phase ^ 2) :
    (Motor.FOC_current env Id_des Iq_des I_phase pwm_phase phase_vel s).1 = false
    ∧ (Motor.FOC_current env Id_des Iq_des I_phase pwm_phase phase_vel s).2.error =
        s.error ||| ERROR_CURRENT_LIMIT_VIOLATION
    ∧ (Motor.FOC_current env Id_des Iq_des I_phase pwm_phase phase_vel s).2.armed = false
    ∧ (Motor.FOC_current env Id_des Iq_des I_phase pwm_phase phase_vel s).2.axis_error =
        s.axis_error ||| AXIS_ERROR_MOTOR_FAILED
    ∧ (Motor.FOC_current env Id_des Iq_des I_phase pwm_phase phase_vel s).2.next_timings =
        s.next_timings
    ∧ (Motor.FOC_current env Id_des Iq_des I_phase pwm_phase phase_vel s).2.next_timings_valid =
        s.next_timings_valid := by
  have hcond : ¬(s.current_control.overcurrent_trip_level < |s.current_meas_phB|
      ∨ s.current_control.overcurrent_trip_level < |s.current_meas_phC|) :=
    not_or.mpr ⟨hB, hC⟩
  simp only [Motor.FOC_current]
  rw [if_neg hcond, park_d_cc_update, park_q_cc_update, if_pos hviol]
  exact ⟨rfl, by simp [Motor.set_error], by simp [Motor.set_error],
    by simp [Motor.set_error], by simp [Motor.set_error], by simp [Motor.set_error]⟩

/-- A concrete state for the current-limit claims: measured phase
currents of −10 A each (within the 100 A trip level), effective current
limit 1 A with zero margin. -/
def sW1 : MotorState :=
  { s0 with current_meas_phB := -10, current_meas_phC := -10, effective_current_lim_ := 1 }

/-- Witness for `FOC_current_limit_violation`: at `sW1` the Park-frame
currents are `(Id, Iq) = (20, 0)` and `20² > (1 + 0)²`. -/
theorem FOC_current_limit_violation_witness :
    (Motor.FOC_current env0 0 0 0 0 0 sW1).1 = false
    ∧ (Motor.FOC_current env0 0 0 0 0 0 sW1).2.error =
        sW1.error ||| ERROR_CURRENT_LIMIT_VIOLATION
    ∧ (Motor.FOC_current env0 0 0 0 0 0 sW1).2.armed = false
    ∧ (Motor.FOC_current env0 0 0 0 0 0 sW1).2.next_timings_valid =
        sW1.next_timings_valid :=
  ⟨(FOC_current_limit_violation env0 sW1 0 0 0 0 0
      (by norm_num [sW1, s0, cc0]) (by norm_num [sW1, s0, cc0])
      (by norm_num [Motor.park_d, Motor.park_q, Motor.clarke_alpha, Motor.clarke_beta,
        sW1, s0, cc0, cfg0, env0, one_by_sqrt3])).1,
   (FOC_current_limit_violation env0 sW1 0 0 0 0 0
      (by norm_num [sW1, s0, cc0]) (by norm_num [sW1, s0, cc0])
      (by norm_num [Motor.park_d, Motor.park_q, Motor.clarke_alpha, Motor.clarke_beta,
        sW1, s0, cc0, cfg0, env0, one_by_sqrt3])).2.1,
   (FOC_current_limit_violation env0 sW1 0 0 0 0 0
      (by norm_num [sW1, s0, cc0]) (by norm_num [sW1, s0, cc0])
      (by norm_num [Motor.park_d, Motor.park_q, Motor.clarke_alpha, Motor.clarke_beta,
        sW1, s0, cc0, cfg0, env0, one_by_sqrt3])).2.2.1,
   (FOC_current_limit_violation env0 sW1 0 0 0 0 0
      (by norm_num [sW1, s0, cc0]) (by norm_num [sW1, s0, cc0])
      (by norm_num [Motor.park_d, Motor.park_q, Motor.clarke_alpha, Motor.clarke_beta,
        sW1, s0, cc0, cfg0, env0, one_by_sqrt3])).2.2.2.2.2⟩

/-- A concrete state violating both the sense-saturation and the current
limit: trip level lowered to 1 A while the measured currents are −10 A. -/
def sCX1 : MotorState :=
  { s0 with
    current_meas_phB := -10
    current_meas_phC := -10
    effective_current_lim_ := 1
    current_control := { cc0 with overcurrent_trip_level := 1 } }

/-- Counterexample to C1 as stated: at `sCX1` the measured d/q currents
satisfy `Id² + Iq² > (effective_current_lim + current_lim_margin)²`, yet
the call does not set `CURRENT_LIMIT_VIOLATION` — the earlier
current-sense saturation check fires first and sets only
`CURRENT_SENSE_SATURATION`. -/
theorem limit_violation_masked_by_sense_saturation :
    (sCX1.effective_current_lim_ + sCX1.config.current_lim_margin) ^ 2 <
      Motor.park_d env0 sCX1 0 ^ 2 + Motor.park_q env0 sCX1 0 ^ 2
    ∧ (Motor.FOC_current env0 0 0 0 0 0 sCX1).1 = false
    ∧ (Motor.FOC_current env0 0 0 0 0 0 sCX1).2.error = ERROR_CURRENT_SENSE_SATURATION
    ∧ (Motor.FOC_current env0 0 0 0 0 0 sCX1).2.error &&& ERROR_CURRENT_LIMIT_VIOLATION = 0 := by
  refine ⟨?_, ?_, ?_, ?_⟩
  · norm_num [Motor.park_d, Motor.park_q, Motor.clarke_alpha, Motor.clarke_beta,
      sCX1, s0, cc0, cfg0, env0, one_by_sqrt3]
  · simp [Motor.FOC_current, sCX1, s0, cc0, Motor.set_error]
  · simp [Motor.FOC_current, sCX1, s0, cc0, Motor.set_error]
  · simp only [Motor.FOC_current, sCX1, s0, cc0, Motor.set_error]
    norm_num
    decide

theorem enqueue_fvse (env : Env) (ma mb : Option ℚ) (pre s : MotorState)
    (he : s.error = pre.error) (ha : s.axis_error = pre.axis_error) :
    Motor.failsViaSetError pre (Motor.enqueue_modulation_timings env ma mb s) := by
  intro hfail
  rcases ma with _ | a
  · refine ⟨⟨ERROR_MODULATION_IS_NAN, by decide, by decide, ?_⟩, ?_, ?_⟩ <;>
      simp [Motor.enqueue_modulation_timings, Motor.set_error, he, ha]
  · rcases mb with _ | b
    · refine ⟨⟨ERROR_MODULATION_IS_NAN, by decide, by decide, ?_⟩, ?_, ?_⟩ <;>
        simp [Motor.enqueue_modulation_timings, Motor.set_error, he, ha]
    · by_cases hsucc : (env.svm a b).2.2.2 = true
      · exfalso
        simp [Motor.enqueue_modulation_timings, hsucc] at hfail
      · have hf : (env.svm a b).2.2.2 = false := Bool.eq_false_iff.mpr hsucc
        refine ⟨⟨ERROR_MODULATION_MAGNITUDE, by decide, by decide, ?_⟩, ?_, ?_⟩ <;>
          simp [Motor.enqueue_modulation_timings, Motor.set_error, hf, he, ha]

theorem enqueue_voltage_fvse (env : Env) (va vb : ℚ) (pre s : MotorState)
    (he : s.error = pre.error) (ha : s.axis_error = pre.axis_error) :
    Motor.failsViaSetError pre (Motor.enqueue_voltage_timings env va vb s) := by
  unfold Motor.enqueue_voltage_timings
  exact enqueue_fvse env _ _ pre s he ha

theorem FOC_voltage_fvse (env : Env) (vd vq pp : ℚ) (pre s : MotorState)
    (he : s.error = pre.error) (ha : s.axis_error = pre.axis_error) :
    Motor.failsViaSetError pre (Motor.FOC_voltage env vd vq pp s) := by
  unfold Motor.FOC_voltage
  exact enqueue_voltage_fvse env _ _ pre s he ha

theorem FOC_current_fvse (env : Env) (a b c d e : ℚ) (pre s : MotorState)
    (he : s.error = pre.error) (ha : s.axis_error = pre.axis_error) :
    Motor.failsViaSetError pre (Motor.FOC_current env a b c d e s) := by
  simp only [Motor.FOC_current]
  split_ifs with h1 h2
  · intro _
    refine ⟨⟨ERROR_CURRENT_SENSE_SATURATION, by decide, by decide, ?_⟩, ?_, rfl⟩ <;>
      simp [Motor.set_error, he, ha]
  · intro _
    refine ⟨⟨ERROR_CURRENT_LIMIT_VIOLATION, by decide, by decide, ?_⟩, ?_, rfl⟩ <;>
      simp [Motor.set_error, he, ha]
  all_goals exact enqueue_fvse env _ _ pre _ (by simpa using he) (by simpa using ha)

theorem acim_block_preserves_error (env : Env) (id iq phase phase_vel : ℚ)
    (s : MotorState) :
    (Motor.acim_block env id iq phase phase_vel s).2.2.2.error = s.error := by
  unfold Motor.acim_block
  split_ifs <;> rfl

theorem acim_block_preserves_axis_error (env : Env) (id iq phase phase_vel : ℚ)
    (s : MotorState) :
    (Motor.acim_block env id iq phase phase_vel s).2.2.2.axis_error = s.axis_error := by
  unfold Motor.acim_block
  split_ifs <;> rfl

theorem update_fvse (env : Env) (tq ph om : ℚ) (pre s : MotorState)
    (he : s.error = pre.error) (ha : s.axis_error = pre.axis_error) :
    Motor.failsViaSetError pre (Motor.update env tq ph om s) := by
  simp only [Motor.update]
  split_ifs with hA h0 h3 h2 h0' h2'
  · exact FOC_current_fvse env _ _ _ _ _ pre _
      (by rw [acim_block_preserves_error, he]) (by rw [acim_block_preserves_axis_error, ha])
  · exact FOC_current_fvse env _ _ _ _ _ pre _
      (by rw [acim_block_preserves_error, he]) (by rw [acim_block_preserves_axis_error, ha])
  · exact FOC_voltage_fvse env _ _ _ pre _
      (by rw [acim_block_preserves_error, he]) (by rw [acim_block_preserves_axis_error, ha])
  · intro _
    refine ⟨⟨ERROR_NOT_IMPLEMENTED_MOTOR_TYPE, by decide, by decide, ?_⟩, ?_, rfl⟩ <;>
      simp [Motor.set_error, acim_block_preserves_error, acim_block_preserves_axis_error, he, ha]
  · exact FOC_current_fvse env _ _ _ _ _ pre _ he ha
  · exact FOC_voltage_fvse env _ _ _ pre _ he ha
  · intro _
    refine ⟨⟨ERROR_NOT_IMPLEMENTED_MOTOR_TYPE, by decide, by decide, ?_⟩, ?_, rfl⟩ <;>
      simp [Motor.set_error, he, ha]

theorem inductance_tail_fvse (env : Env) (vl vh a0 a1 : ℚ) (pre s : MotorState)
    (he : s.error = pre.error) (ha : s.axis_error = pre.axis_error) :
    Motor.failsViaSetError pre (Motor.measure_phase_inductance_tail env vl vh a0 a1 s) := by
  simp only [Motor.measure_phase_inductance_tail]
  split_ifs with h
  · intro _
    refine ⟨⟨ERROR_PHASE_INDUCTANCE_OUT_OF_RANGE, by decide, by decide, ?_⟩, ?_, rfl⟩ <;>
      simp [Motor.set_error, he, ha]
  · intro hfail
    exact absurd hfail (by simp)

/-- C2 (amended): every failing path of `FOC_current`, `FOC_voltage`,
`enqueue_modulation_timings`, `enqueue_voltage_timings`, `update`, the
inductance range check of calibration, and `setup`'s gate-driver path
goes through `set_error(kind)`: when any of these returns false, a
specific nonzero error kind has been OR-ed into the motor error bitmask,
the axis has been notified with `ERROR_MOTOR_FAILED`, and PWM has been
disarmed.  (`setup`'s op-amp gain-negotiation failure, by contrast,
returns false without any of these effects — see the counterexample.) -/
theorem failing_paths_funnel_through_set_error (env : Env) (s : MotorState) :
    (∀ ma mb : Option ℚ,
      Motor.failsViaSetError s (Motor.enqueue_modulation_timings env ma mb s))
    ∧ (∀ va vb : ℚ, Motor.failsViaSetError s (Motor.enqueue_voltage_timings env va vb s))
    ∧ (∀ vd vq pp : ℚ, Motor.failsViaSetError s (Motor.FOC_voltage env vd vq pp s))
    ∧ (∀ idd iqd ip pp pv : ℚ,
      Motor.failsViaSetError s (Motor.FOC_current env idd iqd ip pp pv s))
    ∧ (∀ tq ph om : ℚ, Motor.failsViaSetError s (Motor.update env tq ph om s))
    ∧ (∀ vl vh a0 a1 : ℚ,
      Motor.failsViaSetError s (Motor.measure_phase_inductance_tail env vl vh a0 a1 s))
    ∧ (∀ g : ℚ → Option ℚ, Motor.failsViaSetError s (Motor.setup false g s)) :=
  ⟨fun ma mb => enqueue_fvse env ma mb s s rfl rfl,
   fun va vb => enqueue_voltage_fvse env va vb s s rfl rfl,
   fun vd vq pp => FOC_voltage_fvse env vd vq pp s s rfl rfl,
   fun idd iqd ip pp pv => FOC_current_fvse env idd iqd ip pp pv s s rfl rfl,
   fun tq ph om => update_fvse env tq ph om s s rfl rfl,
   fun vl vh a0 a1 => inductance_tail_fvse env vl vh a0 a1 s s rfl rfl,
   fun g => by
    intro _
    refine ⟨⟨ERROR_DRV_FAULT, by decide, by decide, ?_⟩, ?_, rfl⟩ <;>
      simp [Motor.setup, Motor.set_error]⟩

/-- Witness for `failing_paths_funnel_through_set_error`: the NaN path of
`enqueue_modulation_timings` and the unknown-motor-type path of `update`
at concrete inputs. -/
theorem failing_paths_funnel_witness :
    ((∃ k, k ∈ motorErrorBits ∧ k ≠ 0 ∧
        (Motor.enqueue_modulation_timings env0 none none s0).2.error = s0.error ||| k)
      ∧ (Motor.enqueue_modulation_timings env0 none none s0).2.axis_error =
          s0.axis_error ||| AXIS_ERROR_MOTOR_FAILED
      ∧ (Motor.enqueue_modulation_timings env0 none none s0).2.armed = false)
    ∧ ((∃ k, k ∈ motorErrorBits ∧ k ≠ 0 ∧
        (Motor.update env0 1 0 0 { s0 with config := { cfg0 with motor_type := 99 } }).2.error =
          { s0 with config := { cfg0 with motor_type := 99 } }.error ||| k)
      ∧ (Motor.update env0 1 0 0 { s0 with config := { cfg0 with motor_type := 99 } }).2.axis_error =
          { s0 with config := { cfg0 with motor_type := 99 } }.axis_error ||| AXIS_ERROR_MOTOR_FAILED
      ∧ (Motor.update env0 1 0 0 { s0 with config := { cfg0 with motor_type := 99 } }).2.armed =
          false) :=
  ⟨(failing_paths_funnel_through_set_error env0 s0).1 none none rfl,
   (failing_paths_funnel_through_set_error env0
      { s0 with config := { cfg0 with motor_type := 99 } }).2.2.2.2.1 1 0 0
      (by norm_num [Motor.update, Motor.clampQ, MOTOR_TYPE_ACIM, MOTOR_TYPE_HIGH_CURRENT,
        MOTOR_TYPE_GIMBAL, Motor.set_error])⟩

/-- Counterexample to C2 as stated: `setup` with a working gate driver
but a failing op-amp gain negotiation returns false with NO error kind
OR-ed into the bitmask, the axis NOT notified, and the PWM still armed. -/
theorem setup_opamp_failure_sets_no_error :
    (Motor.setup true (fun _ => none) s0).1 = false
    ∧ (Motor.setup true (fun _ => none) s0).2.error = 0
    ∧ s0.error = 0
    ∧ (Motor.setup true (fun _ => none) s0).2.axis_error = s0.axis_error
    ∧ (Motor.setup true (fun _ => none) s0).2.armed = true := by
  refine ⟨rfl, ?_, rfl, rfl, ?_⟩ <;> rfl

theorem enqueue_preserves_cc (env : Env) (ma mb : Option ℚ) (s : MotorState) :
    (Motor.enqueue_modulation_timings env ma mb s).2.current_control =
      s.current_control := by
  rcases ma with _ | a
  · rfl
  · rcases mb with _ | b
    · rfl
    · by_cases hsucc : (env.svm a b).2.2.2 = true
      · simp [Motor.enqueue_modulation_timings, hsucc]
      · have hf : (env.svm a b).2.2.2 = false := Bool.eq_false_iff.mpr hsucc
        simp [Motor.enqueue_modulation_timings, hf, Motor.set_error]

theorem FOC_voltage_preserves_cc (env : Env) (vd vq pp : ℚ) (s : MotorState) :
    (Motor.FOC_voltage env vd vq pp s).2.current_control = s.current_control := by
  unfold Motor.FOC_voltage Motor.enqueue_voltage_timings
  exact enqueue_preserves_cc env _ _ s

theorem FOC_current_preserves_Id_setpoint (env : Env) (a b c d e : ℚ) (s : MotorState) :
    (Motor.FOC_current env a b c d e s).2.current_control.Id_setpoint =
      s.current_control.Id_setpoint := by
  simp only [Motor.FOC_current]
  split_ifs with h1 h2
  · rfl
  · rfl
  all_goals rw [enqueue_preserves_cc]

theorem acim_block_Id_setpoint_noautoflux (env : Env) (id iq phase phase_vel : ℚ)
    (s : MotorState) (hf : s.config.acim_autoflux_enable = false) :
    (Motor.acim_block env id iq phase phase_vel s).2.2.2.current_control.Id_setpoint =
      s.current_control.Id_setpoint := by
  simp [Motor.acim_block, hf]

/-- C10: `update()` leaves `current_control_.Id_setpoint` unchanged
unless the motor is an ACIM with `acim_autoflux_enable`; and for
`HIGH_CURRENT` and `GIMBAL` motors `update()` dispatches with the d-axis
setpoint equal to the stored `Id_setpoint` clamped to
`±effective_current_lim_`, never writing it back. -/
theorem update_Id_setpoint_policy (env : Env) (tq ph om : ℚ) (s : MotorState) :
    (¬(s.config.motor_type = MOTOR_TYPE_ACIM ∧ s.config.acim_autoflux_enable = true) →
      (Motor.update env tq ph om s).2.current_control.Id_setpoint =
        s.current_control.Id_setpoint)
    ∧ (s.config.motor_type = MOTOR_TYPE_HIGH_CURRENT →
      Motor.update env tq ph om s =
        Motor.FOC_current env
          (Motor.clampQ s.current_control.Id_setpoint (-s.effective_current_lim_)
            s.effective_current_lim_)
          (Motor.clampQ (tq / s.config.torque_constant * s.config.direction)
            (-s.effective_current_lim_) s.effective_current_lim_)
          (ph * s.config.direction)
          (ph * s.config.direction +
            3 / 2 * env.current_meas_period * (om * s.config.direction))
          (om * s.config.direction) s)
    ∧ (s.config.motor_type = MOTOR_TYPE_GIMBAL →
      Motor.update env tq ph om s =
        Motor.FOC_voltage env
          (Motor.clampQ s.current_control.Id_setpoint (-s.effective_current_lim_)
            s.effective_current_lim_)
          (Motor.clampQ (tq / s.config.torque_constant * s.config.direction)
            (-s.effective_current_lim_) s.effective_current_lim_)
          (ph * s.config.direction +
            3 / 2 * env.current_meas_period * (om * s.config.direction)) s) := by
  refine ⟨?_, ?_, ?_⟩
  · intro hno
    by_cases hACIM : s.config.motor_type = MOTOR_TYPE_ACIM
    · have hf : s.config.acim_autoflux_enable = false := by
        cases hEn : s.config.acim_autoflux_enable
        · rfl
        · exact absurd ⟨hACIM, hEn⟩ hno
      simp only [Motor.update, if_pos hACIM]
      rw [acim_block_preserves_config, hACIM]
      rw [if_neg (by norm_num [MOTOR_TYPE_ACIM, MOTOR_TYPE_HIGH_CURRENT]), if_pos rfl]
      rw [FOC_current_preserves_Id_setpoint]
      exact acim_block_Id_setpoint_noautoflux env _ _ _ _ s hf
    · simp only [Motor.update, if_neg hACIM]
      split_ifs with h0 h2
      · exact FOC_current_preserves_Id_setpoint env _ _ _ _ _ s
      · rw [FOC_voltage_preserves_cc]
      · rfl
  · intro h
    have hne : s.config.motor_type ≠ MOTOR_TYPE_ACIM := by
      rw [h]; norm_num [MOTOR_TYPE_HIGH_CURRENT, MOTOR_TYPE_ACIM]
    simp only [Motor.update, if_neg hne]
    rw [if_pos h]
  · intro h
    have hne : s.config.motor_type ≠ MOTOR_TYPE_ACIM := by
      rw [h]; norm_num [MOTOR_TYPE_GIMBAL, MOTOR_TYPE_ACIM]
    have hne0 : s.config.motor_type ≠ MOTOR_TYPE_HIGH_CURRENT := by
      rw [h]; norm_num [MOTOR_TYPE_GIMBAL, MOTOR_TYPE_HIGH_CURRENT]
    simp only [Motor.update, if_neg hne, if_neg hne0]
    rw [if_pos h]

/-- Witness for `update_Id_setpoint_policy`: the preserved setpoint and
the two dispatch equations at concrete inputs (a high-current state and a
gimbal state). -/
theorem update_Id_setpoint_policy_witness :
    (Motor.update env0 1 0 0 s0).2.current_control.Id_setpoint =
      s0.current_control.Id_setpoint
    ∧ Motor.update env0 1 0 0 s0 =
        Motor.FOC_current env0
          (Motor.clampQ s0.current_control.Id_setpoint (-s0.effective_current_lim_)
            s0.effective_current_lim_)
          (Motor.clampQ ((1 : ℚ) / s0.config.torque_constant * s0.config.direction)
            (-s0.effective_current_lim_) s0.effective_current_lim_)
          ((0 : ℚ) * s0.config.direction)
          ((0 : ℚ) * s0.config.direction +
            3 / 2 * env0.current_meas_period * ((0 : ℚ) * s0.config.direction))
          ((0 : ℚ) * s0.config.direction) s0
    ∧ Motor.update env0 1 0 0 { s0 with config := { cfg0 with motor_type := MOTOR_TYPE_GIMBAL } } =
        Motor.FOC_voltage env0
          (Motor.clampQ s0.current_control.Id_setpoint (-s0.effective_current_lim_)
            s0.effective_current_lim_)
          (Motor.clampQ ((1 : ℚ) / cfg0.torque_constant * cfg0.direction)
            (-s0.effective_current_lim_) s0.effective_current_lim_)
          ((0 : ℚ) * cfg0.direction +
            3 / 2 * env0.current_meas_period * ((0 : ℚ) * cfg0.direction))
          { s0 with config := { cfg0 with motor_type := MOTOR_TYPE_GIMBAL } } :=
  ⟨(update_Id_setpoint_policy env0 1 0 0 s0).1
      (by norm_num [s0, cfg0, MOTOR_TYPE_HIGH_CURRENT, MOTOR_TYPE_ACIM]),
   (update_Id_setpoint_policy env0 1 0 0 s0).2.1 rfl,
   (update_Id_setpoint_policy env0 1 0 0
      { s0 with config := { cfg0 with motor_type := MOTOR_TYPE_GIMBAL } }).2.2 rfl⟩
